import Mathlib

/-
Verification of the hubitatmaker `Hub` class (hubitatmaker/hub.py).

The Python class keeps an in-memory mirror of the devices managed by a
Hubitat hub and dispatches change notifications to registered listeners.
This file gives a shallow embedding of the state-bearing parts of the
class and proves the behavioural properties claimed of it.

Modelling decisions:
* Python dictionaries (`self._devices`, `self._listeners`, JSON objects)
  are association lists with first-match lookup; assignment replaces the
  first binding in place or appends a fresh one, which matches CPython's
  insertion-order-preserving dict semantics.
* Listener callbacks (`Callable[[], None]`) are opaque handles (`Nat`).
  "Invoking" the listeners of a device is modelled by returning the
  sequence of handles invoked, in invocation order.
* Exceptions (`InvalidToken`, `RequestError`, `InvalidAttribute`,
  `InvalidConfig`, plus Python's built-in `KeyError`, `TypeError` and
  `AttributeError`) are the error side of `Except`.
* Network I/O is factored out: `api_request` takes the HTTP status and
  decoded JSON body of the response, `load_device` takes the device JSON
  the fetch would return, together with a flag recording whether a fetch
  was performed at all.
-/

set_option autoImplicit false

namespace Hubitat

/-! ## JSON values (what `await resp.json()` can produce) -/

/-- A decoded JSON value: `None`, `bool`, `int`, `str`, `list` or `dict`.
Numbers are modelled as integers (the fractional part plays no role in
any branch of the code). -/
inductive Json where
  | null
  | bool (b : Bool)
  | num (n : Int)
  | str (s : String)
  | arr (xs : List Json)
  | obj (kvs : List (String × Json))
deriving Repr

/-- First-match lookup in an association list (Python `d.get(k)` /
`d[k]` on a dict with unique keys). -/
def alistLookup {α : Type} : List (String × α) → String → Option α
  | [], _ => none
  | (k', v) :: rest, k => if k' = k then some v else alistLookup rest k

/-- Python `d[k] = v` on a dict: replace the binding in place if the key
is present (insertion order preserved), otherwise append it. -/
def alistInsert {α : Type} : List (String × α) → String → α → List (String × α)
  | [], k, v => [(k, v)]
  | (k', v') :: rest, k, v =>
    if k' = k then (k, v) :: rest else (k', v') :: alistInsert rest k v

/-- Python truthiness of a decoded JSON value: `None` and `False` are
falsy, numbers are truthy iff nonzero, strings/lists/dicts are truthy
iff non-empty. -/
def Json.truthy : Json → Bool
  | .null => false
  | .bool b => b
  | .num n => n != 0
  | .str s => s != ""
  | .arr xs => !xs.isEmpty
  | .obj kvs => !kvs.isEmpty

/-- `contains` as a `Bool` on character lists: does `needle` occur as a
contiguous sublist of `hay`? -/
def charsContain (needle : List Char) : List Char → Bool
  | [] => needle.isEmpty
  | c :: rest => needle.isPrefixOf (c :: rest) || charsContain needle rest

/-- Python `needle in hay` for strings: substring test. -/
def strContainsSub (hay needle : String) : Bool :=
  charsContain needle.data hay.data

/-- Is this JSON value exactly the string `k`? Python `elem == k` for a
string `k` is `True` only when `elem` is an equal string. -/
def Json.isStrEq (j : Json) (k : String) : Bool :=
  match j with
  | .str s => s = k
  | _ => false

/-- Errors raised by the embedded code: the library's own exception
types plus the Python built-ins the code can hit. -/
inductive HubError where
  | invalidToken
  | requestError
  | invalidAttribute (msg : String)
  | invalidConfig
  | keyError (key : String)
  | typeError
  | attributeError (attr : String)
deriving Repr, DecidableEq

/-- Python `k in j` for a string key `k` and arbitrary decoded JSON `j`:
key membership on dicts, element membership on lists, substring test on
strings; a `TypeError` on `None`/bools/numbers (not iterable). -/
def pyContainsStr (j : Json) (k : String) : Except HubError Bool :=
  match j with
  | .obj kvs => .ok (alistLookup kvs k).isSome
  | .arr xs => .ok (xs.any fun e => e.isStrEq k)
  | .str s => .ok (strContainsSub s k)
  | _ => .error .typeError

/-- Python `j[k]` for a string key `k`: dict lookup (`KeyError` when the
key is absent), `TypeError` on every other decoded JSON value. -/
def pyGetItemStr (j : Json) (k : String) : Except HubError Json :=
  match j with
  | .obj kvs =>
    match alistLookup kvs k with
    | some v => .ok v
    | none => .error (.keyError k)
  | _ => .error .typeError

/-! ## `Hub._api_request` (hub.py lines 321-335)

```python
async def _api_request(self, path: str, method="GET"):
    params = {"access_token": self.token}
    async with aiohttp.request(method, f"{self.api_url}/{path}", params=params) as resp:
        if resp.status >= 400:
            if resp.status == 401:
                raise InvalidToken()
            else:
                raise RequestError(resp)
        json = await resp.json()
        if "error" in json and json["error"]:
            raise RequestError(resp)
        return json
```

The HTTP exchange is abstracted to its observables: the response status
and the decoded body. -/

def api_request (status : Nat) (body : Json) : Except HubError Json :=
  if 400 ≤ status then
    if status = 401 then .error .invalidToken else .error .requestError
  else
    match pyContainsStr body "error" with
    | .error e => .error e
    | .ok c =>
      if c then
        match pyGetItemStr body "error" with
        | .error e => .error e
        | .ok v => if v.truthy then .error .requestError else .ok body
      else .ok body

/-- Spec-side predicate: the decoded body is a JSON object carrying a
truthy `error` member ("the decoded JSON body contains a truthy `error`
field"). -/
def hasTruthyErrorField : Json → Bool
  | .obj kvs =>
    match alistLookup kvs "error" with
    | some v => v.truthy
    | none => false
  | _ => false

/-- Bodies on which the `"error" in json` test is defined and the
subsequent `json["error"]` subscript cannot raise: objects, arrays not
containing the string `"error"`, and strings not containing `"error"`
as a substring. -/
def errorCheckSafe : Json → Bool
  | .obj _ => true
  | .arr xs => !(xs.any fun e => e.isStrEq "error")
  | .str s => !(strContainsSub s "error")
  | _ => false

/-! ## Device state -/

/-- One entry of a device's `attributes` list, e.g.
`{"name": "switch", "dataType": "ENUM", "currentValue": "on"}`. The
`currentValue` is a string or a number (`Union[int, str]`). -/
inductive AttrValue where
  | str (s : String)
  | num (n : Int)
deriving Repr, DecidableEq

structure DevAttr where
  name : String
  dataType : Option String
  currentValue : AttrValue
deriving Repr, DecidableEq

/-- The cached JSON snapshot of one device, as stored in
`self._devices[device_id]`. Only the fields the embedded code reads are
kept; `attributes` is the ordered attribute list. -/
structure Device where
  id : String
  label : String
  attributes : List DevAttr
deriving Repr, DecidableEq

/-- The mutable state of a `Hub` instance. `serverSet` records whether
the `_server` attribute has ever been assigned (it is not assigned in
`__init__`, only in `start`); reading an unassigned attribute raises
`AttributeError`. `serverRunning` tracks the external event server. -/
structure HubState where
  devices : List (String × Device)
  listeners : List (String × List Nat)
  started : Bool
  serverSet : Bool
  serverRunning : Bool
deriving Repr, DecidableEq

/-- The state right after `__init__`: empty registries, not started,
`_server` never assigned. -/
def hubInitState : HubState :=
  { devices := [], listeners := [], started := false
    serverSet := false, serverRunning := false }

/-- An inbound webhook event's `content` object:
`{deviceId, name, value, displayName}`. -/
structure HubEvent where
  deviceId : String
  name : String
  value : AttrValue
  displayName : String
deriving Repr, DecidableEq

/-! ## Hub construction (hub.py lines 40-82) -/

/-- The components of `urllib.parse.urlparse` that `__init__` reads. -/
structure UrlParts where
  scheme : String
  netloc : String
  path : String
deriving Repr, DecidableEq

/-- A character allowed in a URL scheme (`scheme_chars` in
urllib.parse): ASCII letters, digits, `+`, `-`, `.`. -/
def schemeChar (c : Char) : Bool :=
  c.isAlpha || c.isDigit || c == '+' || c == '-' || c == '.'

/-- Index of the first occurrence of a character, `none` if absent
(Python `url.find(':')` returning `-1`). -/
def charFindIdx (target : Char) : List Char → Option Nat
  | [] => none
  | c :: rest =>
    if c = target then some 0 else (charFindIdx target rest).map (· + 1)

/-- `_splitnetloc`: the netloc runs from position 2 up to the first
`/`, `?` or `#`. -/
def splitNetloc (l : List Char) : List Char × List Char :=
  let n := l.takeWhile fun c => !(c == '/' || c == '?' || c == '#')
  (n, l.drop n.length)

/-- Models `urllib.parse.urlsplit` restricted to the `scheme`, `netloc`
and `path` components, for URLs without query or fragment: a leading
`scheme:` is split off when every character before the `:` is a scheme
character and the remainder is not a bare port number; a following `//`
introduces the netloc, which extends to the next `/`, `?` or `#`. -/
def urlsplit (url : String) : UrlParts :=
  let l := url.data
  let (scheme, rest) :=
    match charFindIdx ':' l with
    | some i =>
      if 0 < i then
        let pre := l.take i
        let post := l.drop (i + 1)
        if pre.all schemeChar then
          if !post.isEmpty && post.all Char.isDigit then ("", l)
          else (String.mk (pre.map Char.toLower), post)
        else ("", l)
      else ("", l)
    | none => ("", l)
  if rest.take 2 = ['/', '/'] then
    let (nl, rest2) := splitNetloc (rest.drop 2)
    { scheme := scheme, netloc := String.mk nl, path := String.mk rest2 }
  else
    { scheme := scheme, netloc := "", path := String.mk rest }

/-- The configuration `__init__` derives from its arguments. -/
structure HubConfig where
  scheme : String
  host : String
  app_id : String
  token : String
  api_url : String
deriving Repr, DecidableEq

/-- `Hub.__init__` (hub.py lines 63-74): reject empty `host`, `app_id`
or `access_token` with `InvalidConfig`; otherwise parse `host`, default
the scheme to `http`, take the netloc if present and the path
otherwise, and build the Maker API base URL. -/
def mkHub (host app_id access_token : String) : Except HubError HubConfig :=
  if host = "" || app_id = "" || access_token = "" then
    .error .invalidConfig
  else
    let host_url := urlsplit host
    let scheme := if host_url.scheme = "" then "http" else host_url.scheme
    let h := if host_url.netloc = "" then host_url.path else host_url.netloc
    .ok { scheme := scheme, host := h, app_id := app_id
          token := access_token
          api_url := scheme ++ "://" ++ h ++ "/apps/api/" ++ app_id }

/-! ## Listener registry (hub.py lines 118-126) -/

/-- `Hub.add_device_listener`: create the device's list if absent, then
append the listener. -/
def add_device_listener (st : HubState) (device_id : String) (listener : Nat) :
    HubState :=
  let prev := (alistLookup st.listeners device_id).getD []
  { st with listeners := alistInsert st.listeners device_id (prev ++ [listener]) }

/-- `Hub.remove_device_listeners`: reset the device's list to empty. -/
def remove_device_listeners (st : HubState) (device_id : String) : HubState :=
  { st with listeners := alistInsert st.listeners device_id [] }

/-- The listeners that a dispatch for `device_id` invokes, in order:
the registered list, or nothing when the id has no entry. -/
def listenersFor (st : HubState) (device_id : String) : List Nat :=
  (alistLookup st.listeners device_id).getD []

/-! ## Attribute reads (hub.py lines 128-134 and 174-183) -/

/-- The linear scan both readers perform: the first element of
`attributes` whose `name` matches. -/
def findAttr : List DevAttr → String → Option DevAttr
  | [], _ => none
  | a :: rest, n => if a.name = n then some a else findAttr rest n

/-- `Hub.device_has_attribute`: `self._devices[device_id]` raises
`KeyError` for an unknown id; otherwise scan the attribute list. -/
def device_has_attribute (st : HubState) (device_id attr_name : String) :
    Except HubError Bool :=
  match alistLookup st.devices device_id with
  | none => .error (.keyError device_id)
  | some state => .ok (state.attributes.any fun a => a.name == attr_name)

/-- `Hub.get_device_attribute`: `self._devices.get(device_id)` never
raises; an unknown id (or an unmatched attribute name) yields `None`.
A stored device snapshot is a non-empty JSON object, so `if state:` is
the `some` case. -/
def get_device_attribute (st : HubState) (device_id attr_name : String) :
    Option DevAttr :=
  match alistLookup st.devices device_id with
  | some state => findAttr state.attributes attr_name
  | none => none

/-! ## Event ingestion (hub.py lines 204-239) -/

/-- In-place update of the first attribute whose `name` matches:
`attr["currentValue"] = value`. `none` when no attribute matches. -/
def setFirstAttr : List DevAttr → String → AttrValue → Option (List DevAttr)
  | [], _, _ => none
  | a :: rest, n, v =>
    if a.name = n then some ({ a with currentValue := v } :: rest)
    else (setFirstAttr rest n v).map (a :: ·)

/-- `Hub._update_device_attr`: an unknown device id is logged and
ignored (the state is returned unchanged); a matched attribute has its
`currentValue` overwritten in place; a known device without the named
attribute raises `InvalidAttribute`. -/
def update_device_attr (st : HubState) (device_id attr_name : String)
    (value : AttrValue) : Except HubError HubState :=
  match alistLookup st.devices device_id with
  | none => .ok st
  | some state =>
    match setFirstAttr state.attributes attr_name value with
    | some attrs =>
      .ok { st with
            devices := alistInsert st.devices device_id
              { state with attributes := attrs } }
    | none =>
      .error (.invalidAttribute
        ("Device " ++ device_id ++ " has no attribute " ++ attr_name))

/-- `Hub.process_event`: apply the update, then — when the update did
not raise — invoke every listener registered for the event's device id,
in registration order. The invoked sequence is returned alongside the
new state. -/
def process_event (st : HubState) (event : HubEvent) :
    Except HubError (HubState × List Nat) :=
  match update_device_attr st event.deviceId event.name event.value with
  | .error e => .error e
  | .ok st' =>
    match alistLookup st'.listeners event.deviceId with
    | some ls => .ok (st', ls)
    | none => .ok (st', [])

/-! ## Device loading (hub.py lines 273-319) -/

/-- `Hub._load_device`: fetch and store the device JSON when forced or
when the id is not yet cached; otherwise do nothing. The device JSON
that `_api_request` would return is passed in as `fetched`; the `Bool`
in the result records whether a network fetch was performed. -/
def load_device (st : HubState) (device_id : String) (force_refresh : Bool)
    (fetched : Device) : HubState × Bool :=
  if force_refresh || (alistLookup st.devices device_id).isNone then
    ({ st with devices := alistInsert st.devices device_id fetched }, true)
  else
    (st, false)

/-! ## Commands (hub.py lines 189-196) -/

/-- A command argument: `Optional[Union[str, int]]` with `some` for a
provided argument. -/
inductive CmdArg where
  | str (s : String)
  | num (n : Int)
deriving Repr, DecidableEq

/-- Python truthiness of a provided argument: `0` and `""` are falsy. -/
def CmdArg.truthy : CmdArg → Bool
  | .str s => s != ""
  | .num n => n != 0

/-- `str(arg)` as interpolated by the f-string. -/
def CmdArg.render : CmdArg → String
  | .str s => s
  | .num n => toString n

/-- The path `Hub.send_command` builds: `devices/{id}/{command}`, with
`/{arg}` appended only when `if arg:` is truthy. -/
def send_command_path (device_id command : String) (arg : Option CmdArg) :
    String :=
  let path := "devices/" ++ device_id ++ "/" ++ command
  match arg with
  | some a => if a.truthy then path ++ "/" ++ a.render else path
  | none => path

/-- `Hub.send_command`: issue the built path through `_api_request`
(abstracted as `api`) and return the decoded response unchanged. -/
def send_command (api : String → Except HubError Json)
    (device_id command : String) (arg : Option CmdArg) : Except HubError Json :=
  api (send_command_path device_id command arg)

/-! ## Shutdown (hub.py lines 167-172) -/

/-- `Hub.stop`: reading `self._server` raises `AttributeError` when the
attribute was never assigned (it is assigned only inside `start`);
otherwise the server object is truthy, so it is stopped, the listener
registry is cleared and the started flag is dropped. -/
def stop (st : HubState) : Except HubError HubState :=
  if st.serverSet then
    .ok { st with serverRunning := false, listeners := [], started := false }
  else
    .error (.attributeError "_server")

/-! ## Concrete states used by witnesses and counterexamples -/

/-- A device snapshot shaped like the example in `_load_device`'s
docstring. -/
def exDev : Device :=
  { id := "1922", label := "Bedroom Light"
    attributes :=
      [⟨"switch", some "ENUM", .str "off"⟩, ⟨"level", some "NUMBER", .num 10⟩] }

/-- A replacement snapshot, as a forced refresh could return it. -/
def exDevNew : Device :=
  { id := "1922", label := "Bedroom Light"
    attributes :=
      [⟨"switch", some "ENUM", .str "on"⟩, ⟨"level", some "NUMBER", .num 55⟩] }

/-- A started hub caching `exDev`, with two listeners on it. -/
def exState : HubState :=
  { devices := [("1922", exDev)], listeners := [("1922", [0, 1])]
    started := true, serverSet := true, serverRunning := true }

def exEvent : HubEvent := ⟨"1922", "switch", .str "on", "Bedroom Light"⟩

/-- An event naming an attribute `exDev` does not have. -/
def badAttrEvent : HubEvent := ⟨"1922", "humidity", .num 40, "Bedroom Light"⟩

/-- `exDev.attributes` after `exEvent` is applied. -/
def exAttrsUpdated : List DevAttr :=
  [⟨"switch", some "ENUM", .str "on"⟩, ⟨"level", some "NUMBER", .num 10⟩]

/-- A hub with a listener registered for a device id that is not in the
device registry (`add_device_listener` never checks the registry). -/
def orphanState : HubState :=
  { devices := [], listeners := [("1922", [7])]
    started := true, serverSet := true, serverRunning := true }

/-! ## Helper lemmas -/

theorem alistLookup_insert_self {α : Type} (l : List (String × α)) (k : String)
    (v : α) : alistLookup (alistInsert l k v) k = some v := by
  induction l with
  | nil => simp [alistInsert, alistLookup]
  | cons p rest ih =>
    obtain ⟨k', v'⟩ := p
    by_cases h : k' = k
    · simp [alistInsert, h, alistLookup]
    · simp [alistInsert, h, alistLookup, ih]

theorem alistLookup_insert_ne {α : Type} (l : List (String × α)) (k k' : String)
    (v : α) (h : k' ≠ k) :
    alistLookup (alistInsert l k v) k' = alistLookup l k' := by
  induction l with
  | nil => simp [alistInsert, alistLookup, Ne.symm h]
  | cons p rest ih =>
    obtain ⟨k'', v''⟩ := p
    by_cases hk : k'' = k
    · subst hk
      simp [alistInsert, alistLookup, Ne.symm h]
    · simp [alistInsert, hk, alistLookup, ih]

theorem setFirstAttr_of_any (l : List DevAttr) (n : String) (v : AttrValue)
    (h : l.any (fun a => a.name == n) = true) :
    ∃ l' a', setFirstAttr l n v = some l' ∧ findAttr l' n = some a' ∧
      a'.currentValue = v := by
  induction l with
  | nil => simp at h
  | cons a rest ih =>
    by_cases hn : a.name = n
    · refine ⟨{ a with currentValue := v } :: rest, { a with currentValue := v },
        ?_, ?_, rfl⟩
      · simp [setFirstAttr, hn]
      · simp [findAttr, hn]
    · have h' : rest.any (fun a => a.name == n) = true := by
        simp only [List.any_cons, Bool.or_eq_true, beq_iff_eq] at h
        exact (h.resolve_left hn)
      obtain ⟨l', a', h1, h2, h3⟩ := ih h'
      exact ⟨a :: l', a', by simp [setFirstAttr, hn, h1],
        by simp [findAttr, hn, h2], h3⟩

theorem setFirstAttr_eq_none (l : List DevAttr) (n : String) (v : AttrValue)
    (h : findAttr l n = none) : setFirstAttr l n v = none := by
  induction l with
  | nil => rfl
  | cons a rest ih =>
    by_cases hn : a.name = n
    · simp [findAttr, hn] at h
    · simp only [findAttr, hn, if_false] at h
      simp [setFirstAttr, hn, ih h]

theorem setFirstAttr_eq_set (l : List DevAttr) (n : String) (v : AttrValue)
    (l' : List DevAttr) (h : setFirstAttr l n v = some l') :
    ∃ j a, l.get? j = some a ∧ a.name = n ∧
      l' = l.set j { a with currentValue := v } := by
  induction l generalizing l' with
  | nil => simp [setFirstAttr] at h
  | cons a rest ih =>
    by_cases hn : a.name = n
    · have e : setFirstAttr (a :: rest) n v
          = some ({ a with currentValue := v } :: rest) := by
        simp only [setFirstAttr]
        rw [if_pos hn]
      rw [e, Option.some.injEq] at h
      exact ⟨0, a, rfl, hn, h.symm⟩
    · simp only [setFirstAttr, hn, if_false, Option.map_eq_some'] at h
      obtain ⟨l'', h1, h2⟩ := h
      obtain ⟨j, b, g1, g2, g3⟩ := ih l'' h1
      exact ⟨j + 1, b, g1, g2, by simp [← h2, g3]⟩

theorem process_event_eq (st : HubState) (ev : HubEvent) (st' : HubState)
    (h : update_device_attr st ev.deviceId ev.name ev.value = .ok st') :
    process_event st ev = .ok (st', listenersFor st' ev.deviceId) := by
  unfold process_event
  rw [h]
  cases hl : alistLookup st'.listeners ev.deviceId <;> simp [listenersFor, hl]

/-! ## The claims -/

/-- C1 (amended): `_api_request` classifies a response as follows:
status 401 fails with `InvalidToken`; any other status ≥ 400 fails with
`RequestError`; a status < 400 whose body is an object with a truthy
`error` member fails with `RequestError`; a status < 400 whose body is
an object without one, an array not containing the string `"error"`,
or a string not containing `"error"` returns the body unchanged; any
other body under status < 400 (number, boolean, null, an array
containing `"error"`, a string containing `"error"`) raises a Python
`TypeError` from the `in`/subscript operations instead. -/
theorem api_request_classification (status : Nat) (body : Json) :
    api_request status body =
      if 400 ≤ status then
        if status = 401 then .error .invalidToken else .error .requestError
      else if errorCheckSafe body then
        if hasTruthyErrorField body then .error .requestError else .ok body
      else .error .typeError := by
  unfold api_request
  by_cases hs : 400 ≤ status
  · simp [hs]
  · simp only [hs, if_false]
    cases body with
    | null => simp [pyContainsStr, errorCheckSafe]
    | bool b => simp [pyContainsStr, errorCheckSafe]
    | num n => simp [pyContainsStr, errorCheckSafe]
    | str s =>
      by_cases hc : strContainsSub s "error"
      · simp [pyContainsStr, errorCheckSafe, hc, pyGetItemStr]
      · simp [pyContainsStr, errorCheckSafe, hasTruthyErrorField, hc]
    | arr xs =>
      by_cases hc : xs.any (fun e => e.isStrEq "error")
      · simp [pyContainsStr, errorCheckSafe, hc, pyGetItemStr]
      · simp [pyContainsStr, errorCheckSafe, hasTruthyErrorField, hc]
    | obj kvs =>
      cases hv : alistLookup kvs "error" with
      | none =>
        simp [pyContainsStr, errorCheckSafe, hasTruthyErrorField, hv]
      | some v =>
        by_cases ht : v.truthy
        · simp [pyContainsStr, errorCheckSafe, hasTruthyErrorField, hv,
            pyGetItemStr, ht]
        · simp [pyContainsStr, errorCheckSafe, hasTruthyErrorField, hv,
            pyGetItemStr, ht]

/-- C1 counterexample: a 200 response whose decoded body is the number
`5` has no truthy `error` field, so by the claim it should be returned
unchanged; the code instead raises `TypeError` (`"error" in 5` is not
defined). -/
theorem api_request_number_body_counterexample :
    api_request 200 (Json.num 5) = .error .typeError ∧
    api_request 200 (Json.num 5) ≠ .ok (Json.num 5) :=
  ⟨rfl, fun h => Except.noConfusion h⟩

/-- C2: processing an event for a cached device and an existing
attribute name succeeds, sets that attribute's `currentValue` to the
event's value, and invokes exactly the listeners registered for that
device id, each once, in registration order. -/
theorem process_event_known_device_attr (st : HubState) (ev : HubEvent)
    (dev : Device) (hdev : alistLookup st.devices ev.deviceId = some dev)
    (hattr : dev.attributes.any (fun a => a.name == ev.name) = true) :
    ∃ st', process_event st ev = .ok (st', listenersFor st ev.deviceId) ∧
      ∃ a', get_device_attribute st' ev.deviceId ev.name = some a' ∧
        a'.currentValue = ev.value := by
  obtain ⟨l', a', h1, h2, h3⟩ :=
    setFirstAttr_of_any dev.attributes ev.name ev.value hattr
  refine ⟨{ st with devices := alistInsert st.devices ev.deviceId ({ dev with attributes := l' }) },
    ?_, a', ?_, h3⟩
  · have hupd : update_device_attr st ev.deviceId ev.name ev.value =
        .ok { st with devices := alistInsert st.devices ev.deviceId ({ dev with attributes := l' }) } := by
      simp only [update_device_attr, hdev, h1]
    rw [process_event_eq st ev _ hupd]
    rfl
  · unfold get_device_attribute
    rw [alistLookup_insert_self st.devices ev.deviceId
      { dev with attributes := l' }]
    exact h2

/-- C2 witness at a concrete state: the `switch` attribute of device
`1922` is set to `"on"` and listeners `[0, 1]` fire in order. -/
theorem process_event_known_device_attr_witness :
    ∃ st', process_event exState exEvent =
        .ok (st', listenersFor exState exEvent.deviceId) ∧
      ∃ a', get_device_attribute st' exEvent.deviceId exEvent.name = some a' ∧
        a'.currentValue = exEvent.value :=
  process_event_known_device_attr exState exEvent exDev rfl rfl

/-- C3 counterexample: the claim says an event for a device id absent
from the registry invokes no listener, but `process_event` dispatches
unconditionally after a non-raising update, so a listener registered
for the unknown id `"1922"` is invoked. -/
theorem process_event_unknown_device_counterexample :
    process_event orphanState ⟨"1922", "switch", .str "on", "Bedroom Light"⟩ =
      .ok (orphanState, [7]) ∧ ([7] : List Nat) ≠ [] :=
  ⟨rfl, by decide⟩

/-- C3 (amended): processing an event for a device id absent from the
device registry raises no exception and leaves the whole state — the
device registry in particular — unchanged; the listeners registered for
that id, if any, are still invoked, because dispatch is unconditional
whenever the update does not raise. -/
theorem process_event_unknown_device (st : HubState) (ev : HubEvent)
    (h : alistLookup st.devices ev.deviceId = none) :
    process_event st ev = .ok (st, listenersFor st ev.deviceId) := by
  have hupd : update_device_attr st ev.deviceId ev.name ev.value = .ok st := by
    unfold update_device_attr
    rw [h]
  exact process_event_eq st ev st hupd

/-- C3 witness: on a freshly initialized hub (no devices, no
listeners) the event is a complete no-op. -/
theorem process_event_unknown_device_witness :
    process_event hubInitState ⟨"1922", "switch", .str "on", "Bedroom Light"⟩ =
      .ok (hubInitState,
        listenersFor hubInitState
          (HubEvent.deviceId ⟨"1922", "switch", .str "on", "Bedroom Light"⟩)) :=
  process_event_unknown_device hubInitState
    ⟨"1922", "switch", .str "on", "Bedroom Light"⟩ rfl

/-- C4: processing an event for a cached device whose attribute list
does not contain the event's attribute name fails with
`InvalidAttribute`; the error propagates out of `process_event` and no
listener is invoked (dispatch is never reached). -/
theorem process_event_unknown_attr (st : HubState) (ev : HubEvent)
    (dev : Device) (hdev : alistLookup st.devices ev.deviceId = some dev)
    (hattr : findAttr dev.attributes ev.name = none) :
    process_event st ev =
      .error (.invalidAttribute
        ("Device " ++ ev.deviceId ++ " has no attribute " ++ ev.name)) := by
  have hupd : update_device_attr st ev.deviceId ev.name ev.value =
      .error (.invalidAttribute
        ("Device " ++ ev.deviceId ++ " has no attribute " ++ ev.name)) := by
    simp only [update_device_attr, hdev,
      setFirstAttr_eq_none dev.attributes ev.name ev.value hattr]
  unfold process_event
  rw [hupd]

/-- C4 witness: device `1922` has no `humidity` attribute, so that
event raises `InvalidAttribute`. -/
theorem process_event_unknown_attr_witness :
    process_event exState badAttrEvent =
      .error (.invalidAttribute
        ("Device " ++ badAttrEvent.deviceId ++ " has no attribute " ++
          badAttrEvent.name)) :=
  process_event_unknown_attr exState badAttrEvent exDev rfl rfl

/-- C5: for a device id already cached, `_load_device` without force
performs no fetch and leaves the state (hence the cached entry)
unchanged, while `_load_device` with force always fetches and replaces
the cached entry wholesale with the fetched snapshot. -/
theorem load_device_cached_and_forced (st : HubState) (device_id : String)
    (d fetched : Device) (h : alistLookup st.devices device_id = some d) :
    load_device st device_id false fetched = (st, false) ∧
    load_device st device_id true fetched =
      ({ st with devices := alistInsert st.devices device_id fetched }, true) ∧
    alistLookup (alistInsert st.devices device_id fetched) device_id =
      some fetched := by
  refine ⟨?_, rfl, alistLookup_insert_self st.devices device_id fetched⟩
  unfold load_device
  rw [h]
  simp

/-- C5 witness: reloading the cached device `1922` without force is a
no-op; a forced reload replaces its snapshot with `exDevNew`. -/
theorem load_device_cached_and_forced_witness :
    load_device exState "1922" false exDevNew = (exState, false) ∧
    load_device exState "1922" true exDevNew =
      ({ exState with
          devices := alistInsert exState.devices "1922" exDevNew }, true) ∧
    alistLookup (alistInsert exState.devices "1922" exDevNew) "1922" =
      some exDevNew :=
  load_device_cached_and_forced exState "1922" exDev exDevNew rfl

/-- C6: `get_device_attribute` returns `none` and cannot raise when the
device id is unknown or the attribute name is unmatched, whereas
`device_has_attribute` raises `KeyError` for an unknown device id. -/
theorem get_attr_lenient_has_attr_strict (st : HubState)
    (device_id attr_name : String)
    (h : alistLookup st.devices device_id = none ∨
      ∃ dev, alistLookup st.devices device_id = some dev ∧
        findAttr dev.attributes attr_name = none) :
    get_device_attribute st device_id attr_name = none ∧
    (alistLookup st.devices device_id = none →
      device_has_attribute st device_id attr_name =
        .error (.keyError device_id)) := by
  constructor
  · unfold get_device_attribute
    rcases h with h | ⟨dev, h1, h2⟩
    · rw [h]
    · rw [h1]
      exact h2
  · intro h0
    unfold device_has_attribute
    rw [h0]

/-- C6 witness: device id `"9999"` is unknown to `exState`. -/
theorem get_attr_lenient_has_attr_strict_witness :
    get_device_attribute exState "9999" "switch" = none ∧
    (alistLookup exState.devices "9999" = none →
      device_has_attribute exState "9999" "switch" =
        .error (.keyError "9999")) :=
  get_attr_lenient_has_attr_strict exState "9999" "switch" (Or.inl rfl)

/-- C7: constructing a hub with the bare address `"10.0.1.99"` (no
scheme) resolves the scheme to `http` and produces the base URL
`http://10.0.1.99/apps/api/{app_id}`. -/
theorem mkHub_bare_host (app_id token : String) (ha : app_id ≠ "")
    (ht : token ≠ "") :
    mkHub "10.0.1.99" app_id token =
      .ok { scheme := "http", host := "10.0.1.99", app_id := app_id
            token := token
            api_url := "http://10.0.1.99/apps/api/" ++ app_id } := by
  unfold mkHub
  rw [if_neg]
  · rfl
  · simp [ha, ht]

/-- C7 witness at a concrete Maker API app id and token. -/
theorem mkHub_bare_host_witness :
    mkHub "10.0.1.99" "1234" "token123" =
      .ok { scheme := "http", host := "10.0.1.99", app_id := "1234"
            token := "token123"
            api_url := "http://10.0.1.99/apps/api/" ++ "1234" } :=
  mkHub_bare_host "1234" "token123" (by decide) (by decide)

/-- C8 counterexample: the argument `0` is provided but falsy, so
`send_command` drops it: the built path is `devices/1922/setLevel`,
not `devices/1922/setLevel/0` as the claim requires. -/
theorem send_command_zero_arg_counterexample :
    send_command_path "1922" "setLevel" (some (.num 0)) =
      "devices/1922/setLevel" ∧
    send_command_path "1922" "setLevel" (some (.num 0)) ≠
      "devices/1922/setLevel/0" :=
  ⟨rfl, by decide⟩

/-- C8 (amended): `send_command` issues the built path through the API
layer and returns its decoded response unchanged; the path is
`devices/{id}/{command}` with `/{arg}` appended exactly when the
argument is provided and truthy (a nonzero number or non-empty
string); an absent argument, the number `0` and the empty string all
yield the bare `devices/{id}/{command}` path. -/
theorem send_command_spec (api : String → Except HubError Json)
    (device_id command : String) (arg : Option CmdArg) :
    send_command api device_id command arg =
      api (send_command_path device_id command arg) ∧
    send_command_path device_id command none =
      "devices/" ++ device_id ++ "/" ++ command ∧
    (∀ a : CmdArg, a.truthy = true →
      send_command_path device_id command (some a) =
        "devices/" ++ device_id ++ "/" ++ command ++ "/" ++ a.render) ∧
    (∀ a : CmdArg, a.truthy = false →
      send_command_path device_id command (some a) =
        "devices/" ++ device_id ++ "/" ++ command) := by
  refine ⟨rfl, rfl, ?_, ?_⟩
  · intro a h
    simp [send_command_path, h]
  · intro a h
    simp [send_command_path, h]

/-- C8 witness: a truthy argument `50` is appended to the path. -/
theorem send_command_spec_witness :
    send_command_path "1922" "setLevel" (some (.num 50)) =
      "devices/" ++ "1922" ++ "/" ++ "setLevel" ++ "/" ++
        CmdArg.render (.num 50) :=
  (send_command_spec (fun _ => .ok .null) "1922" "setLevel"
    (some (.num 50))).2.2.1 (.num 50) rfl

/-- C9: on a freshly constructed hub — `start` never called, so the
`_server` attribute was never assigned — `stop` does not succeed: it
raises `AttributeError` at `if self._server:`, contradicting the claim
that `stop` always succeeds. -/
theorem stop_before_start_attribute_error :
    stop hubInitState = .error (.attributeError "_server") := rfl

/-- C10: an update for a cached device and existing attribute modifies
exactly one attribute entry — the first one whose name matches — of
exactly that device: the attribute list is the old list with one
position overwritten by a copy whose `currentValue` is the event's
value, every other device id resolves to its old snapshot, and the
listener registrations, started flag and server fields are untouched. -/
theorem process_event_frame (st : HubState) (ev : HubEvent) (dev : Device)
    (hdev : alistLookup st.devices ev.deviceId = some dev)
    (attrs' : List DevAttr)
    (hset : setFirstAttr dev.attributes ev.name ev.value = some attrs') :
    ∃ st' invoked, process_event st ev = .ok (st', invoked) ∧
      st'.listeners = st.listeners ∧
      st'.started = st.started ∧
      st'.serverSet = st.serverSet ∧
      st'.serverRunning = st.serverRunning ∧
      (∀ k, k ≠ ev.deviceId →
        alistLookup st'.devices k = alistLookup st.devices k) ∧
      alistLookup st'.devices ev.deviceId =
        some { dev with attributes := attrs' } ∧
      ∃ j a, dev.attributes.get? j = some a ∧ a.name = ev.name ∧
        attrs' = dev.attributes.set j { a with currentValue := ev.value } := by
  have hupd : update_device_attr st ev.deviceId ev.name ev.value =
      .ok { st with devices := alistInsert st.devices ev.deviceId ({ dev with attributes := attrs' }) } := by
    simp only [update_device_attr, hdev, hset]
  refine ⟨_, _, process_event_eq st ev _ hupd, rfl, rfl, rfl, rfl, ?_, ?_, ?_⟩
  · intro k hk
    exact alistLookup_insert_ne st.devices ev.deviceId k
      { dev with attributes := attrs' } hk
  · exact alistLookup_insert_self st.devices ev.deviceId
      { dev with attributes := attrs' }
  · exact setFirstAttr_eq_set dev.attributes ev.name ev.value attrs' hset

/-- C10 witness: applying `exEvent` to `exState` rewrites only the
`switch` entry of device `1922`. -/
theorem process_event_frame_witness :
    ∃ st' invoked, process_event exState exEvent = .ok (st', invoked) ∧
      st'.listeners = exState.listeners ∧
      st'.started = exState.started ∧
      st'.serverSet = exState.serverSet ∧
      st'.serverRunning = exState.serverRunning ∧
      (∀ k, k ≠ exEvent.deviceId →
        alistLookup st'.devices k = alistLookup exState.devices k) ∧
      alistLookup st'.devices exEvent.deviceId =
        some { exDev with attributes := exAttrsUpdated } ∧
      ∃ j a, exDev.attributes.get? j = some a ∧ a.name = exEvent.name ∧
        exAttrsUpdated =
          exDev.attributes.set j { a with currentValue := exEvent.value } :=
  process_event_frame exState exEvent exDev rfl exAttrsUpdated rfl

end Hubitat
